import Mathlib

/-!
Verification development for the `betrayer` tray-icon crate.

The Rust sources embedded here:
* `src/lib.rs` — public data model (`ClickType`, `TrayEvent`, `MenuItem`,
  `Menu`, builder and handle types).
* `src/platform/windows/mod.rs` — windows lifecycle (`NativeTrayIcon`),
  the subclass window procedure `tray_subclass_proc`, `ClickType::from_lparam`,
  `LOWORD`, the global tray-id counter.
* `src/platform/macos/menu.rs` — the macOS native-menu emitter.

Machine integers (`u32`, `u16`, `usize`) are embedded as `Nat` with explicit
`% 2^w` at the points where the Rust code casts.  Fallible native calls are
embedded by passing the environment's answer (`Except`) as an argument, and
Rust panics (`unwrap` / `expect`) as the `panicked` constructor of `PanicOr`.
The parts of the crate not available here (`platform/windows/menu.rs`
defining `NativeMenu`, and `utils.rs` defining `OptionCellExt::with`) are
modelled from the specification, and are marked as such in doc comments.
-/

namespace Betrayer

/-- `ClickType` from `src/lib.rs`: kind of click on the tray icon itself. -/
inductive ClickType where
  | Left
  | Right
  | Double
deriving DecidableEq, Repr

/-- `TrayEvent<T>` from `src/lib.rs`: event delivered to the user callback. -/
inductive TrayEvent (T : Type) where
  | Tray : ClickType → TrayEvent T
  | Menu : T → TrayEvent T
deriving DecidableEq, Repr

/-- `MenuItem<T>` from `src/lib.rs`.  Note the `Button` variant as written in
`lib.rs` carries exactly two fields, `name` and `signal` — it has no
`checked` field. -/
inductive MenuItem (T : Type) where
  | Separator
  | Button (name : String) (signal : T)
  | Menu (name : String) (children : List (MenuItem T))

/-- `MenuItem::separator()` from `src/lib.rs`. -/
def MenuItem.separator {T : Type} : MenuItem T :=
  MenuItem.Separator

/-- `MenuItem::button(name, signal)` from `src/lib.rs` (`ToString` is the
identity on strings here). -/
def MenuItem.button {T : Type} (name : String) (signal : T) : MenuItem T :=
  MenuItem.Button name signal

/-- `MenuItem::menu(name, children)` from `src/lib.rs`. -/
def MenuItem.menu {T : Type} (name : String) (children : List (MenuItem T)) :
    MenuItem T :=
  MenuItem.Menu name children

/-- `Menu<T>` from `src/lib.rs`: ordered sequence of menu items. -/
structure Menu (T : Type) where
  items : List (MenuItem T)

/-- `Menu::new(items)` from `src/lib.rs`. -/
def Menu.new {T : Type} (items : List (MenuItem T)) : Menu T :=
  { items := items }

/-! ## Windows platform constants (`windows` crate values used by
`src/platform/windows/mod.rs`). -/

def WM_DESTROY : Nat := 2
def WM_COMMAND : Nat := 273
def WM_LBUTTONUP : Nat := 514
def WM_LBUTTONDBLCLK : Nat := 515
def WM_RBUTTONUP : Nat := 517
def WM_USER_TRAY_ICON : Nat := 6002

/-- `ClickType::from_lparam` from `src/platform/windows/mod.rs`: the Rust
code matches on `lparam.0 as u32`, embedded as `% 2^32`. -/
def ClickType.from_lparam (lparam : Nat) : Option ClickType :=
  let v := lparam % 4294967296
  if v = WM_LBUTTONUP then some ClickType.Left
  else if v = WM_RBUTTONUP then some ClickType.Right
  else if v = WM_LBUTTONDBLCLK then some ClickType.Double
  else none

/-- `LOWORD(dword)` from `src/platform/windows/mod.rs`: `(dword & 0xFFFF) as
u16`, embedded as `% 2^16`. -/
def LOWORD (dword : Nat) : Nat :=
  dword % 65536

/-- Modelled from the spec: `NativeMenu` lives in
`src/platform/windows/menu.rs`, which is not among the available sources.
Per the spec (§3, §4.2) a compiled menu bundles the opaque native menu object
with an id table mapping each allocated integer id to the `Signal` value of
the Button it was assigned to.  Only the table is observable here. -/
structure NativeMenu (α : Type) where
  table : List (Nat × α)
deriving DecidableEq, Repr

/-- Modelled from the spec: `NativeMenu::map(id)` (called by `WM_COMMAND`
handling in `src/platform/windows/mod.rs`) looks the id up in the compiled
menu's id table (§4.4: "look up the id in the current CompiledMenu's
table"). -/
def NativeMenu.map {α : Type} (m : NativeMenu α) (id : Nat) : Option α :=
  (m.table.find? (fun p => p.1 == id)).map Prod.snd

/-- `SharedTrayData` from `src/platform/windows/mod.rs`: the shared cell
holding the current compiled menu and tooltip. -/
structure SharedTrayData (α : Type) where
  menu : Option (NativeMenu α)
  tooltip : Option String
deriving DecidableEq, Repr

/-- `TrayLoopData` from `src/platform/windows/mod.rs`: hook-owned storage.
The boxed user callback it also holds is represented behaviourally by
`Effect.callback` events emitted by the hook. -/
structure TrayLoopData (α : Type) where
  shared : SharedTrayData α
deriving DecidableEq, Repr

/-- Observable actions of one invocation of the subclass procedure. -/
inductive Effect (α : Type) where
  /-- the boxed user callback was invoked with this event -/
  | callback : TrayEvent α → Effect α
  /-- showing the current menu at the cursor was requested -/
  | popupMenu
  /-- a log line was emitted (`log::trace` / `log::debug` / `log::warn`) -/
  | log : String → Effect α
  /-- the `TrayLoopData` box was reclaimed (`Box::from_raw` + drop) -/
  | dropLoopData
deriving DecidableEq, Repr

/-- `tray_subclass_proc` from `src/platform/windows/mod.rs`, lines 143–178.
Inputs: the process's registered `TaskbarCreated` message number
(`S_U_TASKBAR_RESTART`, a runtime value), the hook storage `d`, and the raw
message triple.  `OptionCellExt::with` (from the unavailable `utils.rs`) is
modelled from the spec: it runs its closure on the cell's current contents
only when they are `Some`, and restores them, leaving the cell unchanged.
The result is the surviving hook storage (`none` after `WM_DESTROY` frees
it) together with the list of observable effects in order. -/
def tray_subclass_proc {α : Type} (taskbarRestart : Nat) (d : TrayLoopData α)
    (msg wparam lparam : Nat) : Option (TrayLoopData α) × List (Effect α) :=
  if msg = WM_DESTROY then
    (none, [Effect.dropLoopData, Effect.log "Dropped message loop data"])
  else if msg = taskbarRestart then
    (some d, [Effect.log "Taskbar restarted"])
  else if msg = WM_USER_TRAY_ICON then
    match ClickType.from_lparam lparam with
    | some click =>
        (some d,
          Effect.callback (TrayEvent.Tray click) ::
            (if click = ClickType.Right then
              match d.shared.menu with
              | some _ => [Effect.popupMenu]
              | none => []
            else []))
    | none => (some d, [])
  else if msg = WM_COMMAND then
    match d.shared.menu with
    | none => (some d, [])
    | some m =>
        match m.map (LOWORD (wparam % 4294967296)) with
        | none => (some d, [Effect.log "Unknown menu item id"])
        | some signal =>
            (some d, [Effect.callback (TrayEvent.Menu signal)])
  else
    (some d, [])

/-- Modelled from the spec: the Native Menu Compiler's id assignment
(`NativeMenu::try_from` in the unavailable `src/platform/windows/menu.rs`).
Per §4.2 the compiler walks the item list in pre-order; each `Button`
allocates the next sequential id and records `(id, signal)` in the table;
a `Menu` (submenu) recursively compiles its children in place, consuming no
id itself; a `Separator` consumes no id.  `compileList items next` returns
the table entries produced by `items` (in emission order) together with the
next unallocated id. -/
def compileList {T : Type} : List (MenuItem T) → Nat → List (Nat × T) × Nat
  | [], next => ([], next)
  | MenuItem.Separator :: rest, next => compileList rest next
  | MenuItem.Button _ signal :: rest, next =>
      let r := compileList rest (next + 1)
      ((next, signal) :: r.1, r.2)
  | MenuItem.Menu _ children :: rest, next =>
      let r1 := compileList children next
      let r2 := compileList rest r1.2
      (r1.1 ++ r2.1, r2.2)

/-- Modelled from the spec: compiling a whole `Menu` starts id allocation at
the fixed base value 1 (§3: "starting at a fixed base value (e.g. 1)") and
bundles the resulting table into the compiled menu. -/
def compileMenu {T : Type} (m : Menu T) : NativeMenu T :=
  { table := (compileList m.items 1).1 }

/-- The signals of the `Button` leaves of an item list, in pre-order
(specification order of §4.2); `Separator` and `Menu` nodes contribute no
entry of their own. -/
def signalsList {T : Type} : List (MenuItem T) → List T
  | [] => []
  | MenuItem.Separator :: rest => signalsList rest
  | MenuItem.Button _ signal :: rest => signal :: signalsList rest
  | MenuItem.Menu _ children :: rest => signalsList children ++ signalsList rest

/-! ## The erased callback wrapper (`src/platform/windows/mod.rs`, lines
80–92).

The Rust wrapper receives `TrayEvent<&dyn Any>` and recovers the concrete
signal type with `downcast_ref::<T>().expect("Signal has the wrong type")`.
`&dyn Any` is embedded as a dependent pair of a runtime type tag and a value
of the tagged type, over a small closed universe of payload types;
`downcast_ref` compares tags. -/

/-- Runtime type tags standing for the `TypeId`s that `dyn Any` carries. -/
inductive Ty where
  | nat
  | str
  | bool
deriving DecidableEq, Repr

/-- Interpretation of a type tag. -/
@[reducible] def Ty.interp : Ty → Type
  | Ty.nat => Nat
  | Ty.str => String
  | Ty.bool => Bool

/-- Embedding of a `&dyn Any` reference: a runtime type tag plus a value of
the tagged type. -/
def AnyRef : Type := Sigma Ty.interp

/-- Embedding of `<dyn Any>::downcast_ref::<T>`: succeeds, returning the
value, exactly when the stored tag equals the requested one. -/
def downcast_ref (t : Ty) (v : AnyRef) : Option t.interp :=
  if h : v.1 = t then some (h ▸ v.2) else none

/-- Outcome of running code that may panic: either the process terminates
with a panic message, or a value is produced. -/
inductive PanicOr (ρ : Type) where
  | panicked : String → PanicOr ρ
  | ok : ρ → PanicOr ρ
deriving DecidableEq, Repr

/-- The erased callback closure built in `NativeTrayIcon::new`
(`src/platform/windows/mod.rs`, lines 82–91): on `TrayEvent::Menu(signal)`
it downcasts the erased signal to `T`, panicking via
`.expect("Signal has the wrong type")` when the downcast fails, clones the
recovered value (cloning is the identity here) and invokes the user's typed
callback with `Menu` of it; on `TrayEvent::Tray(click)` it passes the click
through.  The user callback is embedded as a pure function into an
observation type `ρ`. -/
def erased_callback {ρ : Type} (t : Ty) (cb : TrayEvent t.interp → ρ) :
    TrayEvent AnyRef → PanicOr ρ
  | TrayEvent.Menu signal =>
      match downcast_ref t signal with
      | some value => PanicOr.ok (cb (TrayEvent.Menu value))
      | none => PanicOr.panicked "Signal has the wrong type"
  | TrayEvent.Tray click => PanicOr.ok (cb (TrayEvent.Tray click))

/-! ## `NativeTrayIcon` lifecycle state and `set_tooltip`
(`src/platform/windows/mod.rs`, lines 25–29 and 111–120). -/

/-- `NativeTrayIcon` from `src/platform/windows/mod.rs`: window handle,
process-unique tray id, and the shared state cell. -/
structure NativeTrayIcon (α : Type) where
  hwnd : Nat
  tray_id : Nat
  shared : SharedTrayData α
deriving DecidableEq, Repr

/-- `NativeTrayIcon::set_tooltip` from `src/platform/windows/mod.rs`, lines
111–120: it issues the native `Shell_NotifyIcon` modify call (whose outcome
the environment supplies as `applyResult`) and calls `.unwrap()` on it —
panicking on a native error — then stores the new tooltip in the shared
cell.  The function returns no error value to its caller. -/
def NativeTrayIcon.set_tooltip {α : Type} (applyResult : Except Nat Unit)
    (icon : NativeTrayIcon α) (tooltip : Option String) :
    PanicOr (NativeTrayIcon α) :=
  match applyResult with
  | Except.error _ => PanicOr.panicked "called `Result::unwrap()` on an `Err` value"
  | Except.ok _ =>
      PanicOr.ok
        { icon with shared := { icon.shared with tooltip := tooltip } }

/-! ## The process-wide tray-id counter (`src/platform/windows/mod.rs`,
lines 47 and 186). -/

/-- Initial value of `GLOBAL_TRAY_COUNTER` (`AtomicU32::new(1)`). -/
def GLOBAL_TRAY_COUNTER_INIT : Nat := 1

/-- `fetch_add(1, Ordering::Relaxed)` on an `AtomicU32`: returns the old
value and stores the incremented value wrapped to 32 bits. -/
def fetch_add_u32 (counter : Nat) : Nat × Nat :=
  (counter, (counter + 1) % 4294967296)

/-- Value of `GLOBAL_TRAY_COUNTER` after `k` successful
`NativeTrayIcon::new` calls (each performs one `fetch_add_u32`). -/
def counter_state : Nat → Nat
  | 0 => GLOBAL_TRAY_COUNTER_INIT
  | k + 1 => (fetch_add_u32 (counter_state k)).2

/-- The `tray_id` assigned to the `k`-th (0-indexed) successful
`NativeTrayIcon::new` call in the process: the value `fetch_add_u32`
returns, i.e. the counter before that call's increment. -/
def tray_id_of_creation (k : Nat) : Nat :=
  (fetch_add_u32 (counter_state k)).1

/-! ## The macOS native-menu emitter (`src/platform/macos/menu.rs`).

That file destructures `MenuItem::Button { name, checked, .. }`, i.e. it
requires a `Button` variant with a `checked` field — which the `MenuItem`
of `lib.rs` above does not have.  The emitter is therefore embedded over
the three-field `Button` it (and spec §3) requires, as a separate item
type. -/

/-- The three-field menu item type that `src/platform/macos/menu.rs`
destructures (`Button` with `name`, `signal` and `checked`), matching spec
§3. -/
inductive MacMenuItem (T : Type) where
  | Separator
  | Button (name : String) (signal : T) (checked : Bool)
  | Menu (name : String) (children : List (MacMenuItem T))

/-- Observable shape of an emitted `NSMenuItem`: either the native separator
item, or an item with a title, a control state (`NSControlStateValueOn`
iff `true`), whether a target/action pair was attached, and an optional
submenu holding emitted children. -/
inductive NSMenuItemModel where
  | separatorItem
  | item (title : String) (state : Bool) (hasAction : Bool)
      (submenu : Option (List NSMenuItemModel))

mutual

/-- `build_menu_item` from `src/platform/macos/menu.rs`, lines 8–41:
`Separator` becomes `NSMenuItem::separatorItem()`; a `Button` becomes an
item titled with its name, state set from `checked`, wired to the shared
`SystemTrayCallback` target and its menu-item selector, with no submenu; a
`Menu` becomes an item titled with its name (no state set, no target or
action set) holding a submenu whose children are built recursively in
order.  `build_menu_items` is the `for` loop over children. -/
def build_menu_item {T : Type} : MacMenuItem T → NSMenuItemModel
  | MacMenuItem.Separator => NSMenuItemModel.separatorItem
  | MacMenuItem.Button name _ checked =>
      NSMenuItemModel.item name checked true none
  | MacMenuItem.Menu name children =>
      NSMenuItemModel.item name false false (some (build_menu_items children))

/-- The child loop of `build_menu_item`: children are emitted in their
original order. -/
def build_menu_items {T : Type} : List (MacMenuItem T) → List NSMenuItemModel
  | [] => []
  | i :: rest => build_menu_item i :: build_menu_items rest

end

/-- `construct_native_menu` from `src/platform/macos/menu.rs`, lines 43–52:
a fresh `NSMenu` receives every top-level item in order. -/
def construct_native_menu {T : Type} (items : List (MacMenuItem T)) :
    List NSMenuItemModel :=
  build_menu_items items

/-- Concrete hook storage used to exercise the subclass procedure: a
compiled menu whose table maps id 1 to signal 42. -/
def demoLoopData : TrayLoopData Nat :=
  { shared := { menu := some { table := [(1, 42)] }, tooltip := none } }

/-- Concrete tray-icon handle state used to exercise `set_tooltip`. -/
def demoIcon : NativeTrayIcon Nat :=
  { hwnd := 0, tray_id := 1, shared := { menu := none, tooltip := none } }

/-! ## Theorems -/

/-- Compiling an item list starting at id `next` yields exactly the pre-order
Button signals paired with consecutive ids `next, next+1, …`, and returns
`next + (number of Buttons)` as the next free id: Buttons alone consume ids,
in pre-order. -/
theorem compileList_eq_zip {T : Type} (l : List (MenuItem T)) (next : Nat) :
    compileList l next =
      (List.zip (List.range' next (signalsList l).length) (signalsList l),
       next + (signalsList l).length) := by
  induction l, next using compileList.induct with
  | case1 next => simp [compileList, signalsList]
  | case2 rest next ih =>
      simp [compileList, signalsList, ih]
  | case3 name s rest next ih =>
      simp only [compileList, signalsList, ih, List.length_cons, List.range'_succ,
        List.zip_cons_cons, Prod.mk.injEq]
      exact ⟨trivial, by omega⟩
  | case4 name cs rest next r1 ihc ihr =>
      have hr1 : r1 = compileList cs next := rfl
      rw [hr1, ihc] at ihr
      simp only [] at ihr
      simp only [compileList, signalsList, ihc, ihr, List.length_append, Prod.mk.injEq]
      refine ⟨?_, by omega⟩
      rw [← List.zip_append (by simp), List.range'_append_1,
        Nat.add_comm ((signalsList rest).length)]

/-- Looking up the key `base + k` in the table that pairs the ids
`base, base+1, …` with the list `sigs` finds the `k`-th element of `sigs`. -/
theorem find?_zip_range' {T : Type} (sigs : List T) :
    ∀ (base k : Nat) (h : k < sigs.length),
      (List.zip (List.range' base sigs.length) sigs).find? (fun p => p.1 == base + k)
        = some (base + k, sigs.get ⟨k, h⟩) := by
  induction sigs with
  | nil => intro base k h; exact absurd h (by simp)
  | cons s tl ih =>
      intro base k h
      cases k with
      | zero =>
          simp [List.range'_succ, List.find?_cons]
      | succ k' =>
          have hlt : k' < tl.length := by simpa using h
          have ihh := ih (base + 1) k' hlt
          have harith : base + 1 + k' = base + (k' + 1) := by omega
          rw [harith] at ihh
          simp only [List.length_cons, List.range'_succ, List.zip_cons_cons]
          rw [List.find?_cons_of_neg _ (by simp)]
          simpa using ihh

/-- C1: compiling a `Menu` assigns ids to Button leaves only, in pre-order,
starting at the base value 1 and incrementing by 1 per Button (`Separator`
and submenu `Menu` nodes consume no id) — the table is exactly the pre-order
signal list paired with `1, 2, …` — and looking up the `k`-th Button's
assigned id `1 + k` returns exactly that Button's original signal. -/
theorem c1_compile_roundtrip {T : Type} (m : Menu T) :
    (compileMenu m).table =
      List.zip (List.range' 1 (signalsList m.items).length) (signalsList m.items)
    ∧ ∀ k : Nat, (compileMenu m).map (1 + k) = (signalsList m.items)[k]? := by
  constructor
  · simp [compileMenu, compileList_eq_zip]
  · intro k
    by_cases h : k < (signalsList m.items).length
    · rw [List.getElem?_eq_getElem h]
      simp [compileMenu, NativeMenu.map, compileList_eq_zip,
        find?_zip_range' _ 1 k h]
    · rw [List.getElem?_eq_none (by omega)]
      simp only [compileMenu, NativeMenu.map, compileList_eq_zip]
      rw [List.find?_eq_none.2]
      · rfl
      · rintro ⟨a, b⟩ hab
        have hmem := (List.of_mem_zip hab).1
        simp only [List.mem_range'_1] at hmem
        simp only [beq_iff_eq]
        omega

/-- C2: the erased wrapper built in `NativeTrayIcon::new`, invoked with a
`Menu` event whose payload carries the wrapper's own signal type, calls the
user's typed callback with `Menu` of (a clone of) that value; when the
downcast fails it panics (`expect`), terminating the process rather than
returning a recoverable error. -/
theorem c2_erased_wrapper (t : Ty) (ρ : Type) (cb : TrayEvent t.interp → ρ) :
    (∀ v : t.interp,
        erased_callback t cb (TrayEvent.Menu ⟨t, v⟩) =
          PanicOr.ok (cb (TrayEvent.Menu v))) ∧
    (∀ w : AnyRef, w.1 ≠ t →
        erased_callback t cb (TrayEvent.Menu w) =
          PanicOr.panicked "Signal has the wrong type") := by
  constructor
  · intro v
    have hd : downcast_ref t ⟨t, v⟩ = some v := by
      unfold downcast_ref
      rw [dif_pos rfl]
    simp [erased_callback, hd]
  · intro w hw
    have hd : downcast_ref t w = none := by
      unfold downcast_ref
      rw [dif_neg hw]
    simp [erased_callback, hd]

/-- Witness for C2 at concrete inputs: a `Nat`-typed payload is delivered to
the callback, and a `String`-tagged payload makes the wrapper panic. -/
theorem c2_erased_wrapper_witness :
    erased_callback Ty.nat (fun e => e) (TrayEvent.Menu (Sigma.mk Ty.nat (5 : Nat))) =
      PanicOr.ok (TrayEvent.Menu (5 : Nat)) ∧
    erased_callback Ty.nat (fun e => e) (TrayEvent.Menu (Sigma.mk Ty.str "s")) =
      PanicOr.panicked "Signal has the wrong type" :=
  ⟨(c2_erased_wrapper Ty.nat (TrayEvent Nat) (fun e => e)).1 5,
   (c2_erased_wrapper Ty.nat (TrayEvent Nat) (fun e => e)).2
     (Sigma.mk Ty.str "s") (by decide)⟩

/-- C3: a `WM_COMMAND` notification whose id is absent from the current
compiled menu's table only logs and is otherwise ignored — the hook storage
(and so the shared state) is returned unchanged, no callback and no error
effect occur; the callback is invoked with `Menu(signal)` exactly when the
lookup finds the id. -/
theorem c3_unknown_id (α : Type) (taskbarRestart : Nat) (d : TrayLoopData α)
    (m : NativeMenu α) (wparam lparam : Nat)
    (htb : taskbarRestart ≠ WM_COMMAND)
    (hm : d.shared.menu = some m) :
    (m.map (LOWORD (wparam % 4294967296)) = none →
        tray_subclass_proc taskbarRestart d WM_COMMAND wparam lparam =
          (some d, [Effect.log "Unknown menu item id"])) ∧
    (∀ signal, m.map (LOWORD (wparam % 4294967296)) = some signal →
        tray_subclass_proc taskbarRestart d WM_COMMAND wparam lparam =
          (some d, [Effect.callback (TrayEvent.Menu signal)])) := by
  constructor
  · intro hnone
    unfold tray_subclass_proc
    rw [if_neg (by decide), if_neg (Ne.symm htb), if_neg (by decide),
      if_pos rfl, hm]
    simp [hnone]
  · intro signal hsome
    unfold tray_subclass_proc
    rw [if_neg (by decide), if_neg (Ne.symm htb), if_neg (by decide),
      if_pos rfl, hm]
    simp [hsome]

/-- Witness for C3: id 7 is not in the table `[(1, 42)]`, so the hook only
logs, returns its storage unchanged, and invokes no callback. -/
theorem c3_unknown_id_witness :
    tray_subclass_proc 49152 demoLoopData WM_COMMAND 7 0 =
      (some demoLoopData, [Effect.log "Unknown menu item id"]) :=
  (c3_unknown_id Nat 49152 demoLoopData { table := [(1, 42)] } 7 0
    (by decide) rfl).1 (by decide)

/-- C4: a decoded `Right` click invokes the callback with `Tray(Right)` and
then requests a popup of the current compiled menu — a no-op when the shared
state holds no menu; a decoded `Left` or `Double` click invokes the callback
with the corresponding `Tray` event and issues no popup request. -/
theorem c4_click_routing (α : Type) (taskbarRestart : Nat) (d : TrayLoopData α)
    (wparam lparam : Nat) (htb : taskbarRestart ≠ WM_USER_TRAY_ICON) :
    (ClickType.from_lparam lparam = some ClickType.Right →
        tray_subclass_proc taskbarRestart d WM_USER_TRAY_ICON wparam lparam =
          (some d, Effect.callback (TrayEvent.Tray ClickType.Right) ::
            (match d.shared.menu with
             | some _ => [Effect.popupMenu]
             | none => []))) ∧
    (∀ click, ClickType.from_lparam lparam = some click →
        click ≠ ClickType.Right →
        tray_subclass_proc taskbarRestart d WM_USER_TRAY_ICON wparam lparam =
          (some d, [Effect.callback (TrayEvent.Tray click)])) := by
  constructor
  · intro hr
    unfold tray_subclass_proc
    rw [if_neg (by decide), if_neg (Ne.symm htb), if_pos rfl, hr]
    simp
  · intro click hc hne
    unfold tray_subclass_proc
    rw [if_neg (by decide), if_neg (Ne.symm htb), if_pos rfl, hc]
    simp [hne]

/-- Witness for C4: `lparam = WM_RBUTTONUP` with a menu present yields the
`Tray(Right)` callback followed by a popup request. -/
theorem c4_click_routing_witness :
    tray_subclass_proc 49152 demoLoopData WM_USER_TRAY_ICON 0 517 =
      (some demoLoopData,
        [Effect.callback (TrayEvent.Tray ClickType.Right), Effect.popupMenu]) :=
  (c4_click_routing Nat 49152 demoLoopData 0 517 (by decide)).1 (by decide)

/-- C5: `ClickType::from_lparam` maps exactly `WM_LBUTTONUP` to `Left`,
`WM_RBUTTONUP` to `Right` and `WM_LBUTTONDBLCLK` to `Double` (after the
`as u32` cast) and returns `none` for every other code, in which case the
hook performs no action on the tray-icon message: no callback, no error. -/
theorem c5_decoder_exact :
    (∀ lparam, ClickType.from_lparam lparam = some ClickType.Left ↔
        lparam % 4294967296 = WM_LBUTTONUP) ∧
    (∀ lparam, ClickType.from_lparam lparam = some ClickType.Right ↔
        lparam % 4294967296 = WM_RBUTTONUP) ∧
    (∀ lparam, ClickType.from_lparam lparam = some ClickType.Double ↔
        lparam % 4294967296 = WM_LBUTTONDBLCLK) ∧
    (∀ lparam, ClickType.from_lparam lparam = none ↔
        ¬(lparam % 4294967296 = WM_LBUTTONUP ∨
          lparam % 4294967296 = WM_RBUTTONUP ∨
          lparam % 4294967296 = WM_LBUTTONDBLCLK)) ∧
    (∀ (α : Type) (taskbarRestart : Nat) (d : TrayLoopData α) (wparam lparam : Nat),
        taskbarRestart ≠ WM_USER_TRAY_ICON →
        ClickType.from_lparam lparam = none →
        tray_subclass_proc taskbarRestart d WM_USER_TRAY_ICON wparam lparam =
          (some d, [])) := by
  refine ⟨?_, ?_, ?_, ?_, ?_⟩
  · intro lparam
    simp only [ClickType.from_lparam, WM_LBUTTONUP, WM_RBUTTONUP, WM_LBUTTONDBLCLK]
    split_ifs <;> simp_all
  · intro lparam
    simp only [ClickType.from_lparam, WM_LBUTTONUP, WM_RBUTTONUP, WM_LBUTTONDBLCLK]
    split_ifs <;> simp_all
  · intro lparam
    simp only [ClickType.from_lparam, WM_LBUTTONUP, WM_RBUTTONUP, WM_LBUTTONDBLCLK]
    split_ifs <;> simp_all
  · intro lparam
    simp only [ClickType.from_lparam, WM_LBUTTONUP, WM_RBUTTONUP, WM_LBUTTONDBLCLK]
    split_ifs <;> simp_all
  · intro α taskbarRestart d wparam lparam htb hnone
    unfold tray_subclass_proc
    rw [if_neg (by decide), if_neg (Ne.symm htb), if_pos rfl, hnone]

/-- Witness for C5: the unrecognized code 999 produces no effect at all. -/
theorem c5_decoder_exact_witness :
    tray_subclass_proc 49152 demoLoopData WM_USER_TRAY_ICON 0 999 =
      (some demoLoopData, []) :=
  c5_decoder_exact.2.2.2.2 Nat 49152 demoLoopData 0 999 (by decide) (by decide)

/-- C6 (code evaluated at the failing input): in `lib.rs` as given,
`MenuItem::button` produces a `Button` whose payload is exactly the pair
`(name, signal)` — a `Button` value is fully determined by those two fields,
so there is no third `checked` field, contradicting both spec §3 and the
`checked` destructuring in `src/platform/macos/menu.rs`. -/
theorem c6_button_payload :
    MenuItem.button "A" (1 : Nat) = MenuItem.Button "A" 1 ∧
    (∀ (T : Type) (n n2 : String) (s s2 : T),
        MenuItem.Button n s = MenuItem.Button n2 s2 ↔ n = n2 ∧ s = s2) := by
  constructor
  · rfl
  · intro T n n2 s s2
    constructor
    · intro h
      injection h with h1 h2
      exact ⟨h1, h2⟩
    · rintro ⟨rfl, rfl⟩
      rfl

/-- C7 counterexample: at a concrete input where the native update call
fails, `set_tooltip` panics (the `unwrap` in
`NativeTrayIcon::set_tooltip`) — the error is not surfaced to the caller as
a result value, refuting the claim as stated. -/
theorem c7_counterexample :
    NativeTrayIcon.set_tooltip (Except.error 5) demoIcon (some "x") =
      PanicOr.panicked "called `Result::unwrap()` on an `Err` value" := rfl

/-- C7 (amended): `set_tooltip` surfaces no error to its caller: a native
API failure during the synchronous update call terminates the process via
`unwrap`, and on native success the call returns no error, only updating the
stored tooltip; only `build` returns recoverable errors as a result value. -/
theorem c7_no_error_surfaced (α : Type) (icon : NativeTrayIcon α)
    (tooltip : Option String) :
    (∀ code : Nat,
        NativeTrayIcon.set_tooltip (Except.error code) icon tooltip =
          PanicOr.panicked "called `Result::unwrap()` on an `Err` value") ∧
    NativeTrayIcon.set_tooltip (Except.ok ()) icon tooltip =
      PanicOr.ok { icon with shared := { icon.shared with tooltip := tooltip } } :=
  ⟨fun _ => rfl, rfl⟩

/-- C8: with the native update call succeeding, `set_tooltip(Some x)` twice
in a row leaves the shared tooltip state at `x` with no error on either call
(both calls return the same state, the second is a fixed point), the menu is
untouched, and `set_tooltip(None)` clears the stored tooltip. -/
theorem c8_set_tooltip_idempotent (α : Type) (icon : NativeTrayIcon α) (x : String) :
    ∃ icon1 : NativeTrayIcon α,
      NativeTrayIcon.set_tooltip (Except.ok ()) icon (some x) = PanicOr.ok icon1 ∧
      NativeTrayIcon.set_tooltip (Except.ok ()) icon1 (some x) = PanicOr.ok icon1 ∧
      icon1.shared.tooltip = some x ∧
      icon1.shared.menu = icon.shared.menu ∧
      ∀ icon2 : NativeTrayIcon α, ∃ icon3 : NativeTrayIcon α,
        NativeTrayIcon.set_tooltip (Except.ok ()) icon2 none = PanicOr.ok icon3 ∧
        icon3.shared.tooltip = none := by
  refine ⟨{ icon with shared := { icon.shared with tooltip := some x } },
    rfl, rfl, rfl, rfl, ?_⟩
  intro icon2
  exact ⟨{ icon2 with shared := { icon2.shared with tooltip := none } }, rfl, rfl⟩

/-- C9: the macOS emitter maps a `Separator` to the native separator entry
(no action target), a `Button` to a clickable entry wired to the shared
callback target with its checked state reflected and no submenu, and a
submenu `Menu` to a non-clickable entry (no target or action) holding a
sub-container whose children are compiled recursively in original order. -/
theorem c9_macos_emitter (T : Type) :
    build_menu_item (MacMenuItem.Separator : MacMenuItem T) =
      NSMenuItemModel.separatorItem ∧
    (∀ (name : String) (signal : T) (checked : Bool),
        build_menu_item (MacMenuItem.Button name signal checked) =
          NSMenuItemModel.item name checked true none) ∧
    (∀ (name : String) (children : List (MacMenuItem T)),
        build_menu_item (MacMenuItem.Menu name children) =
          NSMenuItemModel.item name false false (some (build_menu_items children))) ∧
    (∀ children : List (MacMenuItem T),
        build_menu_items children = children.map build_menu_item) ∧
    (∀ items : List (MacMenuItem T),
        construct_native_menu items = items.map build_menu_item) := by
  have hmap : ∀ children : List (MacMenuItem T),
      build_menu_items children = children.map build_menu_item := by
    intro children
    induction children with
    | nil => simp [build_menu_items]
    | cons i rest ih => simp [build_menu_items, ih]
  refine ⟨?_, ?_, ?_, hmap, ?_⟩
  · simp [build_menu_item]
  · intro name signal checked
    simp [build_menu_item]
  · intro name children
    simp [build_menu_item]
  · intro items
    simp [construct_native_menu, hmap]

/-- The counter holds `(1 + k) mod 2^32` after `k` creations: it starts at 1
and each creation's `fetch_add` increments it with `u32` wraparound. -/
theorem counter_state_eq (k : Nat) :
    counter_state k = (1 + k) % 4294967296 := by
  induction k with
  | zero => simp [counter_state, GLOBAL_TRAY_COUNTER_INIT]
  | succ k ih =>
      simp only [counter_state, fetch_add_u32, ih]
      omega

/-- C10: tray ids drawn from the process-wide counter are pairwise distinct
among any group of fewer than `2^32` creations (distinctness modulo `u32`
wraparound), and the `tray_id` of an existing handle never changes — in
particular `set_tooltip` returns a handle with the same `tray_id`. -/
theorem c10_unique_ids :
    (∀ i j : Nat, i < j → j - i < 4294967296 →
        tray_id_of_creation i ≠ tray_id_of_creation j) ∧
    (∀ (α : Type) (applyResult : Except Nat Unit) (icon icon2 : NativeTrayIcon α)
        (tooltip : Option String),
        NativeTrayIcon.set_tooltip applyResult icon tooltip = PanicOr.ok icon2 →
        icon2.tray_id = icon.tray_id) := by
  constructor
  · intro i j hij hlt
    simp only [tray_id_of_creation, fetch_add_u32, counter_state_eq]
    omega
  · intro α applyResult icon icon2 tooltip h
    cases applyResult with
    | error code => exact absurd h (by simp [NativeTrayIcon.set_tooltip])
    | ok u =>
        simp only [NativeTrayIcon.set_tooltip] at h
        cases h
        rfl

/-- Witness for C10: the first two creations receive distinct tray ids. -/
theorem c10_unique_ids_witness :
    tray_id_of_creation 0 ≠ tray_id_of_creation 1 :=
  c10_unique_ids.1 0 1 (by decide) (by decide)

end Betrayer
